import Mathlib

/-!
Verification of two standalone S3 utility scripts against their design
specification: a bucket provisioner (create_bucket.py) and a bucket
inspector (check_s3_data.py).  Each script is embedded as a pure function
that, given the responses of the external object store, produces the
ordered trace of store calls and printed lines the script performs.
The external JSON decoder (Python's json.loads) is taken as a parameter,
since it is an external library, not part of the repository.
-/

/-- A JSON value as produced by the external JSON library after a
successful parse.  Mirrors the value space json.loads can return. -/
inductive JsonVal : Type
  | null
  | bool (b : Bool)
  | num (n : Int)
  | str (s : String)
  | arr (elems : List JsonVal)
  | obj (fields : List (String × JsonVal))

/-- Python's isinstance(data, list) on a parsed JSON value. -/
def JsonVal.isList : JsonVal → Bool
  | .arr _ => true
  | _ => false

/-- len(data) if isinstance(data, list) else 1 — the record count the
inspector prints (check_s3_data.py line 41). -/
def recordCount : JsonVal → Nat
  | .arr xs => xs.length
  | _ => 1

/-- A botocore ClientError as observed by these scripts: the error code
checked by create_bucket.py, and str(e), the detail interpolated into the
failure messages. -/
structure ClientErr where
  code : String
  detail : String
deriving DecidableEq

/-- One entry of a list_objects_v2 listing: obj['Key'] and obj['Size']. -/
structure ObjEntry where
  key : String
  size : Nat
deriving DecidableEq

/-- An observable step of a script run: a call into the object store, or
a line printed to standard output.  Write-type store operations are part
of the vocabulary so that their absence from every trace is a theorem,
not a convention.  printJson v stands for printing json.dumps(v, indent=2). -/
inductive Event : Type
  | callCreateBucket (name : String)
  | callListBuckets
  | callListObjects (bucket : String)
  | callGetObject (bucket : String) (key : String)
  | callPutObject (bucket : String) (key : String)
  | callDeleteObject (bucket : String) (key : String)
  | callDeleteBucket (name : String)
  | print (line : String)
  | printJson (v : JsonVal)

/-- The hardcoded bucket name both scripts use. -/
def bucket_name : String := "test-data-lake"

/-- The separator "=" * 80 printed by the inspector. -/
def eqBar : String := String.mk (List.replicate 80 '=')

/-- The listing line f"  📄 \x7bobj['Key']\x7d (size: \x7bobj['Size']\x7d bytes)". -/
def listingLine (o : ObjEntry) : String :=
  "  📄 " ++ o.key ++ " (size: " ++ toString o.size ++ " bytes)"

/-- The read-only face of the object store the inspector consumes: the
result of its single list_objects_v2 call and, per key, the result of
get_object with the body already read and UTF-8 decoded. -/
structure ObjectStore where
  list_objects : Except ClientErr (List ObjEntry)
  get_object : String → Except ClientErr String

/-- check_s3_data.py lines 38-52: try json.loads on the decoded content;
on success print the structure header and record count, then either the
first element of a nonempty array as a sample or the whole value; on
JSONDecodeError print the raw content. -/
def inspectObject (loads : String → Option JsonVal) (content : String) :
    List Event :=
  match loads content with
  | some data =>
      Event.print "📊 Structure: JSON Array" ::
      Event.print ("📊 Number of records: " ++ toString (recordCount data)) ::
      (match data with
       | .arr (x :: _) =>
           [Event.print "📄 Sample record:", Event.printJson x]
       | _ => [Event.printJson data])
  | none =>
      [Event.print "⚠️  Not valid JSON, showing raw content:",
       Event.print content]

/-- check_s3_data.py lines 28-54: the per-object inspection loop over the
listing, followed (when every retrieval succeeds) by the final separator
print.  A ClientError raised by get_object escapes to the top-level
handler, which prints the error and ends the run. -/
def inspectAll (loads : String → Option JsonVal) (store : ObjectStore) :
    List ObjEntry → List Event
  | [] => [Event.print ("\n" ++ eqBar)]
  | o :: rest =>
      Event.print ("\n🔍 Content of " ++ o.key ++ ":") ::
      Event.print eqBar ::
      Event.callGetObject bucket_name o.key ::
      (match store.get_object o.key with
       | .error e => [Event.print ("❌ Error accessing S3: " ++ e.detail)]
       | .ok content => inspectObject loads content ++ inspectAll loads store rest)

/-- check_s3_data.py, function check_s3_data: list the bucket once, print
each key and size in listing order, then inspect each object of that same
listing; any ClientError is caught at the top level and reported. -/
def check_s3_data (loads : String → Option JsonVal) (store : ObjectStore) :
    List Event :=
  Event.callListObjects bucket_name ::
  (match store.list_objects with
   | .error e => [Event.print ("❌ Error accessing S3: " ++ e.detail)]
   | .ok contents =>
       Event.print "📋 Files in S3 bucket:" ::
       (contents.map (fun o => Event.print (listingLine o)) ++
        inspectAll loads store contents))

/-- The object-store interface the provisioner consumes, over an abstract
store state σ: create_bucket and list_buckets, each returning a result
and the successor state. -/
structure S3Api (σ : Type) where
  create_bucket : σ → String → Except ClientErr Unit × σ
  list_buckets : σ → Except ClientErr (List String) × σ

/-- create_bucket.py lines 29-33: the top-level except ClientError branch —
the BucketAlreadyOwnedByYou code is reported as benign success, everything
else as a creation failure carrying str(e). -/
def reportClientErr (e : ClientErr) : Event :=
  if e.code = "BucketAlreadyOwnedByYou" then
    Event.print ("✅ Bucket " ++ bucket_name ++ " already exists")
  else
    Event.print ("❌ Error creating bucket: " ++ e.detail)

/-- create_bucket.py, function create_s3_bucket: create the bucket; on
success print confirmation, then list all buckets and print each name; a
ClientError from either call reaches the single top-level handler. -/
def create_s3_bucket {σ : Type} (api : S3Api σ) (s : σ) : List Event × σ :=
  match api.create_bucket s bucket_name with
  | (.error e, s1) =>
      ([Event.callCreateBucket bucket_name, reportClientErr e], s1)
  | (.ok _, s1) =>
      match api.list_buckets s1 with
      | (.error e, s2) =>
          ([Event.callCreateBucket bucket_name,
            Event.print ("✅ Successfully created bucket: " ++ bucket_name),
            Event.callListBuckets,
            reportClientErr e], s2)
      | (.ok names, s2) =>
          (Event.callCreateBucket bucket_name ::
           Event.print ("✅ Successfully created bucket: " ++ bucket_name) ::
           Event.callListBuckets ::
           Event.print "📋 Available buckets:" ::
           names.map (fun n => Event.print ("  - " ++ n)), s2)

/-- The set of bucket names held by the store. -/
structure StoreState where
  buckets : List String
deriving DecidableEq

/-- Modelled from the spec: the external object-store collaborator (the
MinIO endpoint), which is not part of the repository.  Its contract, from
the spec's interface section: create_bucket(name) -> success when the
bucket is absent, or the already-owned conflict when it exists under the
same credentials; list_buckets() -> the names of all visible buckets. -/
def modelApi : S3Api StoreState where
  create_bucket := fun s name =>
    if name ∈ s.buckets then
      (Except.error ⟨"BucketAlreadyOwnedByYou", "BucketAlreadyOwnedByYou"⟩, s)
    else
      (Except.ok (), ⟨s.buckets ++ [name]⟩)
  list_buckets := fun s => (Except.ok s.buckets, s)

/-- Store operations that create, mutate or delete an object or bucket. -/
def Event.isWrite : Event → Bool
  | .callCreateBucket _ => true
  | .callPutObject _ _ => true
  | .callDeleteObject _ _ => true
  | .callDeleteBucket _ => true
  | _ => false

/-- How many write-type store operations a trace issues. -/
def countWrites (t : List Event) : Nat := t.countP Event.isWrite

/-- The get_object calls of a trace. -/
def Event.isGetCall : Event → Bool
  | .callGetObject _ _ => true
  | _ => false

/-- The failure messages of a trace (every error print of both scripts
starts with the ❌ marker). -/
def Event.isErrorLine : Event → Bool
  | .print s => s.startsWith "❌"
  | _ => false

/-- The JSON values a trace pretty-prints, in order. -/
def dumpedValues (t : List Event) : List JsonVal :=
  t.filterMap (fun e =>
    match e with
    | Event.printJson v => some v
    | _ => none)

/-- The parsed form of the spec's sample element, the object with id 1. -/
def sampleElem : JsonVal := JsonVal.obj [("id", JsonVal.num 1)]

/-- The remaining elements of the spec's three-element sample array. -/
def sampleRest : List JsonVal :=
  [JsonVal.obj [("id", JsonVal.num 2)], JsonVal.obj [("id", JsonVal.num 3)]]

/-- A concrete stand-in for the external JSON decoder, used by the
witnesses: one content string decodes to the spec's sample array, one to
a lone object, everything else fails to parse. -/
def loadsDemo : String → Option JsonVal := fun s =>
  if s = "arraydemo" then some (JsonVal.arr (sampleElem :: sampleRest))
  else if s = "objdemo" then some sampleElem
  else none

/-- A concrete two-object store for the witnesses. -/
def demoStore : ObjectStore where
  list_objects := Except.ok [⟨"a.json", 10⟩, ⟨"b.txt", 4⟩]
  get_object := fun k =>
    if k = "a.json" then Except.ok "arraydemo" else Except.ok "hello world"

/-- A store whose every call is denied, for the failure witnesses. -/
def deniedStore : ObjectStore where
  list_objects := Except.error ⟨"AccessDenied", "An error occurred (AccessDenied)"⟩
  get_object := fun _ =>
    Except.error ⟨"AccessDenied", "An error occurred (AccessDenied)"⟩

/-- A provisioner-facing store whose create_bucket call is denied. -/
def deniedApi : S3Api Unit where
  create_bucket := fun s _ =>
    (Except.error ⟨"AccessDenied", "An error occurred (AccessDenied)"⟩, s)
  list_buckets := fun s => (Except.ok [], s)

/-- A store holding an empty bucket. -/
def emptyStore : ObjectStore where
  list_objects := Except.ok []
  get_object := fun _ => Except.error ⟨"NoSuchKey", "NoSuchKey"⟩

/-- C1: for content that parses as a JSON array (with a first element),
the inspector reports the record count equal to the array's length and
pretty-prints only the first element as the sample. -/
theorem c1_array_sampling (loads : String → Option JsonVal) (content : String)
    (x : JsonVal) (rest : List JsonVal)
    (h : loads content = some (JsonVal.arr (x :: rest))) :
    inspectObject loads content =
      [Event.print "📊 Structure: JSON Array",
       Event.print ("📊 Number of records: " ++ toString (x :: rest).length),
       Event.print "📄 Sample record:",
       Event.printJson x] ∧
    dumpedValues (inspectObject loads content) = [x] := by
  unfold inspectObject
  rw [h]
  exact ⟨rfl, rfl⟩

theorem c1_witness :
    inspectObject loadsDemo "arraydemo" =
      [Event.print "📊 Structure: JSON Array",
       Event.print ("📊 Number of records: " ++
         toString (sampleElem :: sampleRest).length),
       Event.print "📄 Sample record:",
       Event.printJson sampleElem] ∧
    dumpedValues (inspectObject loadsDemo "arraydemo") = [sampleElem] :=
  c1_array_sampling loadsDemo "arraydemo" sampleElem sampleRest rfl

/-- C3: content that fails to parse as JSON is not an error: the
inspector prints the not-valid-JSON notice and the raw decoded text
verbatim, then continues with the remaining objects of the listing. -/
theorem c3_nonjson_fallback (loads : String → Option JsonVal)
    (store : ObjectStore) (o : ObjEntry) (rest : List ObjEntry)
    (content : String)
    (hget : store.get_object o.key = Except.ok content)
    (hparse : loads content = none) :
    inspectAll loads store (o :: rest) =
      Event.print ("\n🔍 Content of " ++ o.key ++ ":") ::
      Event.print eqBar ::
      Event.callGetObject bucket_name o.key ::
      Event.print "⚠️  Not valid JSON, showing raw content:" ::
      Event.print content ::
      inspectAll loads store rest := by
  simp only [inspectAll, hget, inspectObject, hparse]
  rfl

theorem c3_witness :
    inspectAll loadsDemo demoStore [⟨"b.txt", 4⟩] =
      Event.print ("\n🔍 Content of " ++ "b.txt" ++ ":") ::
      Event.print eqBar ::
      Event.callGetObject bucket_name "b.txt" ::
      Event.print "⚠️  Not valid JSON, showing raw content:" ::
      Event.print "hello world" ::
      inspectAll loadsDemo demoStore [] :=
  c3_nonjson_fallback loadsDemo demoStore ⟨"b.txt", 4⟩ [] "hello world" rfl rfl

/-- The record-count line printed when the parsed value is not a list. -/
theorem records_one :
    "📊 Number of records: " ++ toString (1 : Nat) =
      "📊 Number of records: 1" := rfl

/-- The full inspection trace for a parsed value that is not a list. -/
theorem inspectObject_nonlist (loads : String → Option JsonVal)
    (content : String) (v : JsonVal)
    (h : loads content = some v) (hv : v.isList = false) :
    inspectObject loads content =
      [Event.print "📊 Structure: JSON Array",
       Event.print "📊 Number of records: 1",
       Event.printJson v] := by
  unfold inspectObject
  rw [h]
  cases v
  case arr elems => simp [JsonVal.isList] at hv
  all_goals simp [recordCount, records_one]

/-- C5: content that parses as valid JSON other than an array is
pretty-printed whole — the dumped values of the inspection are exactly
the entire parsed value, and no truncated sample line is printed. -/
theorem c5_whole_value (loads : String → Option JsonVal) (content : String)
    (v : JsonVal) (h : loads content = some v) (hv : v.isList = false) :
    dumpedValues (inspectObject loads content) = [v] ∧
    Event.print "📄 Sample record:" ∉ inspectObject loads content := by
  rw [inspectObject_nonlist loads content v h hv]
  constructor
  · simp [dumpedValues]
  · simp

theorem c5_witness :
    dumpedValues (inspectObject loadsDemo "objdemo") = [sampleElem] ∧
    Event.print "📄 Sample record:" ∉ inspectObject loadsDemo "objdemo" :=
  c5_whole_value loadsDemo "objdemo" sampleElem rfl rfl

/-- C9: for parsed values that are not arrays the inspector still prints
the header line claiming a JSON array structure and reports a record
count of 1, whatever the value is. -/
theorem c9_nonarray_header (loads : String → Option JsonVal)
    (content : String) (v : JsonVal)
    (h : loads content = some v) (hv : v.isList = false) :
    inspectObject loads content =
      [Event.print "📊 Structure: JSON Array",
       Event.print "📊 Number of records: 1",
       Event.printJson v] :=
  inspectObject_nonlist loads content v h hv

theorem c9_witness :
    inspectObject loadsDemo "objdemo" =
      [Event.print "📊 Structure: JSON Array",
       Event.print "📊 Number of records: 1",
       Event.printJson sampleElem] :=
  c9_nonarray_header loadsDemo "objdemo" sampleElem rfl rfl

/-- C6: the enumeration pass prints exactly one listing line per entry of
the store's listing, carrying its key and size, in the store's order. -/
theorem c6_listing_order (loads : String → Option JsonVal)
    (store : ObjectStore) (entries : List ObjEntry)
    (h : store.list_objects = Except.ok entries) :
    check_s3_data loads store =
      Event.callListObjects bucket_name ::
      Event.print "📋 Files in S3 bucket:" ::
      (entries.map (fun o => Event.print (listingLine o)) ++
       inspectAll loads store entries) := by
  unfold check_s3_data
  rw [h]

theorem c6_witness :
    check_s3_data loadsDemo demoStore =
      Event.callListObjects bucket_name ::
      Event.print "📋 Files in S3 bucket:" ::
      (([⟨"a.json", 10⟩, ⟨"b.txt", 4⟩] : List ObjEntry).map
         (fun o => Event.print (listingLine o)) ++
       inspectAll loadsDemo demoStore [⟨"a.json", 10⟩, ⟨"b.txt", 4⟩]) :=
  c6_listing_order loadsDemo demoStore [⟨"a.json", 10⟩, ⟨"b.txt", 4⟩] rfl

/-- C7: on an empty bucket the run prints the listing header with no
entries and the closing separator, performs zero get-object calls, and
prints no failure line. -/
theorem c7_empty_bucket (loads : String → Option JsonVal)
    (store : ObjectStore) (h : store.list_objects = Except.ok []) :
    check_s3_data loads store =
      [Event.callListObjects bucket_name,
       Event.print "📋 Files in S3 bucket:",
       Event.print ("\n" ++ eqBar)] ∧
    (check_s3_data loads store).countP Event.isGetCall = 0 ∧
    (check_s3_data loads store).countP Event.isErrorLine = 0 := by
  have ht : check_s3_data loads store =
      [Event.callListObjects bucket_name,
       Event.print "📋 Files in S3 bucket:",
       Event.print ("\n" ++ eqBar)] := by
    unfold check_s3_data
    rw [h]
    rfl
  refine ⟨ht, ?_, ?_⟩ <;> rw [ht] <;> decide

theorem c7_witness :
    check_s3_data loadsDemo emptyStore =
      [Event.callListObjects bucket_name,
       Event.print "📋 Files in S3 bucket:",
       Event.print ("\n" ++ eqBar)] ∧
    (check_s3_data loadsDemo emptyStore).countP Event.isGetCall = 0 ∧
    (check_s3_data loadsDemo emptyStore).countP Event.isErrorLine = 0 :=
  c7_empty_bucket loadsDemo emptyStore rfl

/-- The inspection of one object issues no write-type store call. -/
theorem countWrites_inspectObject (loads : String → Option JsonVal)
    (content : String) : countWrites (inspectObject loads content) = 0 := by
  unfold inspectObject
  cases hl : loads content with
  | none => rfl
  | some data =>
    rcases data with _ | b | n | s | (_ | ⟨x, xs⟩) | fs <;>
      simp [countWrites, Event.isWrite]

/-- The inspection loop issues no write-type store call. -/
theorem countWrites_inspectAll (loads : String → Option JsonVal)
    (store : ObjectStore) (l : List ObjEntry) :
    countWrites (inspectAll loads store l) = 0 := by
  induction l with
  | nil => rfl
  | cons o rest ih =>
    rw [inspectAll]
    cases hg : store.get_object o.key with
    | error e => rfl
    | ok content =>
      have h1 := countWrites_inspectObject loads content
      simp only [countWrites] at h1 ih
      simp [countWrites, List.countP_cons, List.countP_append,
        Event.isWrite, h1, ih]

/-- C8: a run of the inspector never issues a store operation that
creates, mutates or deletes an object or bucket, whatever the store
returns. -/
theorem c8_read_only (loads : String → Option JsonVal)
    (store : ObjectStore) : countWrites (check_s3_data loads store) = 0 := by
  unfold check_s3_data
  cases hl : store.list_objects with
  | error e => rfl
  | ok contents =>
    have h1 := countWrites_inspectAll loads store contents
    simp only [countWrites, List.countP_cons, List.countP_append,
      Event.isWrite, List.countP_map] at h1 ⊢
    simpa [Function.comp, Event.isWrite] using h1

/-- C2: the benign already-owned conflict is success: whenever the store
reports BucketAlreadyOwnedByYou, the provisioner prints only the
already-exists success message; and against the modelled store, two
consecutive runs from a state lacking the bucket print created then
already-exists, with the bucket present exactly once afterwards. -/
theorem c2_idempotent_create :
    (∀ (σ : Type) (api : S3Api σ) (s s1 : σ) (d : String),
      api.create_bucket s bucket_name =
        (Except.error ⟨"BucketAlreadyOwnedByYou", d⟩, s1) →
      (create_s3_bucket api s).1 =
        [Event.callCreateBucket bucket_name,
         Event.print ("✅ Bucket " ++ bucket_name ++ " already exists")]) ∧
    (∀ s0 : StoreState, bucket_name ∉ s0.buckets →
      Event.print ("✅ Successfully created bucket: " ++ bucket_name) ∈
        (create_s3_bucket modelApi s0).1 ∧
      (create_s3_bucket modelApi (create_s3_bucket modelApi s0).2).1 =
        [Event.callCreateBucket bucket_name,
         Event.print ("✅ Bucket " ++ bucket_name ++ " already exists")] ∧
      ((create_s3_bucket modelApi (create_s3_bucket modelApi s0).2).2).buckets.count
          bucket_name = 1) := by
  constructor
  · intro σ api s s1 d h
    unfold create_s3_bucket
    rw [h]
    simp [reportClientErr]
  · intro s0 h0
    have hc : modelApi.create_bucket s0 bucket_name =
        (Except.ok (), ⟨s0.buckets ++ [bucket_name]⟩) := by
      simp [modelApi, h0]
    have h1 : create_s3_bucket modelApi s0 =
        (Event.callCreateBucket bucket_name ::
         Event.print ("✅ Successfully created bucket: " ++ bucket_name) ::
         Event.callListBuckets ::
         Event.print "📋 Available buckets:" ::
         (s0.buckets ++ [bucket_name]).map (fun n => Event.print ("  - " ++ n)),
         ⟨s0.buckets ++ [bucket_name]⟩) := by
      unfold create_s3_bucket
      rw [hc]
      rfl
    have hmem : bucket_name ∈ s0.buckets ++ [bucket_name] := by simp
    have hc2 : modelApi.create_bucket ⟨s0.buckets ++ [bucket_name]⟩ bucket_name =
        (Except.error ⟨"BucketAlreadyOwnedByYou", "BucketAlreadyOwnedByYou"⟩,
         ⟨s0.buckets ++ [bucket_name]⟩) := by
      simp [modelApi, hmem]
    refine ⟨?_, ?_, ?_⟩
    · rw [h1]
      simp
    · rw [h1]
      unfold create_s3_bucket
      rw [hc2]
      simp [reportClientErr]
    · rw [h1]
      unfold create_s3_bucket
      rw [hc2]
      simp [List.count_append, List.count_eq_zero.mpr h0]

theorem c2_witness :
    (create_s3_bucket modelApi ⟨[bucket_name]⟩).1 =
      [Event.callCreateBucket bucket_name,
       Event.print ("✅ Bucket " ++ bucket_name ++ " already exists")] ∧
    (Event.print ("✅ Successfully created bucket: " ++ bucket_name) ∈
       (create_s3_bucket modelApi ⟨[]⟩).1 ∧
     (create_s3_bucket modelApi (create_s3_bucket modelApi ⟨[]⟩).2).1 =
       [Event.callCreateBucket bucket_name,
        Event.print ("✅ Bucket " ++ bucket_name ++ " already exists")] ∧
     ((create_s3_bucket modelApi (create_s3_bucket modelApi ⟨[]⟩).2).2).buckets.count
         bucket_name = 1) :=
  ⟨c2_idempotent_create.1 StoreState modelApi ⟨[bucket_name]⟩ ⟨[bucket_name]⟩
      "BucketAlreadyOwnedByYou" rfl,
   c2_idempotent_create.2 ⟨[]⟩ (by simp)⟩

/-- C4: any store-reported error other than the benign already-owned
conflict — at bucket creation, at the listing, or at retrieval — ends the
run with a single failure message carrying the error detail and no
further store calls. -/
theorem c4_error_surfacing :
    (∀ (σ : Type) (api : S3Api σ) (s s1 : σ) (c d : String),
      api.create_bucket s bucket_name = (Except.error ⟨c, d⟩, s1) →
      c ≠ "BucketAlreadyOwnedByYou" →
      (create_s3_bucket api s).1 =
        [Event.callCreateBucket bucket_name,
         Event.print ("❌ Error creating bucket: " ++ d)]) ∧
    (∀ (loads : String → Option JsonVal) (store : ObjectStore) (c d : String),
      store.list_objects = Except.error ⟨c, d⟩ →
      check_s3_data loads store =
        [Event.callListObjects bucket_name,
         Event.print ("❌ Error accessing S3: " ++ d)]) ∧
    (∀ (loads : String → Option JsonVal) (store : ObjectStore)
       (o : ObjEntry) (rest : List ObjEntry) (c d : String),
      store.get_object o.key = Except.error ⟨c, d⟩ →
      inspectAll loads store (o :: rest) =
        [Event.print ("\n🔍 Content of " ++ o.key ++ ":"),
         Event.print eqBar,
         Event.callGetObject bucket_name o.key,
         Event.print ("❌ Error accessing S3: " ++ d)]) := by
  refine ⟨?_, ?_, ?_⟩
  · intro σ api s s1 c d h hc
    unfold create_s3_bucket
    rw [h]
    simp [reportClientErr, hc]
  · intro loads store c d h
    unfold check_s3_data
    rw [h]
  · intro loads store o rest c d h
    rw [inspectAll, h]

theorem c4_witness :
    (create_s3_bucket deniedApi ()).1 =
      [Event.callCreateBucket bucket_name,
       Event.print ("❌ Error creating bucket: " ++
         "An error occurred (AccessDenied)")] ∧
    check_s3_data loadsDemo deniedStore =
      [Event.callListObjects bucket_name,
       Event.print ("❌ Error accessing S3: " ++
         "An error occurred (AccessDenied)")] ∧
    inspectAll loadsDemo deniedStore [⟨"a.json", 10⟩] =
      [Event.print ("\n🔍 Content of " ++ "a.json" ++ ":"),
       Event.print eqBar,
       Event.callGetObject bucket_name "a.json",
       Event.print ("❌ Error accessing S3: " ++
         "An error occurred (AccessDenied)")] :=
  ⟨c4_error_surfacing.1 Unit deniedApi () () "AccessDenied"
      "An error occurred (AccessDenied)" rfl (by decide),
   c4_error_surfacing.2.1 loadsDemo deniedStore "AccessDenied"
      "An error occurred (AccessDenied)" rfl,
   c4_error_surfacing.2.2 loadsDemo deniedStore ⟨"a.json", 10⟩ []
      "AccessDenied" "An error occurred (AccessDenied)" rfl⟩

/-- C10: the provisioner lists buckets only on the fresh-creation path:
on the benign conflict it prints only the already-exists message and
issues no list-buckets call; after a fresh creation it calls list_buckets
and prints every returned name. -/
theorem c10_listing_only_on_create :
    (∀ (σ : Type) (api : S3Api σ) (s s1 : σ) (d : String),
      api.create_bucket s bucket_name =
        (Except.error ⟨"BucketAlreadyOwnedByYou", d⟩, s1) →
      Event.callListBuckets ∉ (create_s3_bucket api s).1 ∧
      (create_s3_bucket api s).1 =
        [Event.callCreateBucket bucket_name,
         Event.print ("✅ Bucket " ++ bucket_name ++ " already exists")]) ∧
    (∀ (σ : Type) (api : S3Api σ) (s s1 s2 : σ) (names : List String),
      api.create_bucket s bucket_name = (Except.ok (), s1) →
      api.list_buckets s1 = (Except.ok names, s2) →
      (create_s3_bucket api s).1 =
        Event.callCreateBucket bucket_name ::
        Event.print ("✅ Successfully created bucket: " ++ bucket_name) ::
        Event.callListBuckets ::
        Event.print "📋 Available buckets:" ::
        names.map (fun n => Event.print ("  - " ++ n))) := by
  constructor
  · intro σ api s s1 d h
    have ht : (create_s3_bucket api s).1 =
        [Event.callCreateBucket bucket_name,
         Event.print ("✅ Bucket " ++ bucket_name ++ " already exists")] := by
      unfold create_s3_bucket
      rw [h]
      simp [reportClientErr]
    exact ⟨by rw [ht]; simp, ht⟩
  · intro σ api s s1 s2 names h1 h2
    simp only [create_s3_bucket, h1, h2]

theorem c10_witness :
    (Event.callListBuckets ∉ (create_s3_bucket modelApi ⟨[bucket_name]⟩).1 ∧
     (create_s3_bucket modelApi ⟨[bucket_name]⟩).1 =
       [Event.callCreateBucket bucket_name,
        Event.print ("✅ Bucket " ++ bucket_name ++ " already exists")]) ∧
    (create_s3_bucket modelApi ⟨[]⟩).1 =
      Event.callCreateBucket bucket_name ::
      Event.print ("✅ Successfully created bucket: " ++ bucket_name) ::
      Event.callListBuckets ::
      Event.print "📋 Available buckets:" ::
      ([bucket_name] : List String).map (fun n => Event.print ("  - " ++ n)) :=
  ⟨c10_listing_only_on_create.1 StoreState modelApi ⟨[bucket_name]⟩
      ⟨[bucket_name]⟩ "BucketAlreadyOwnedByYou" rfl,
   c10_listing_only_on_create.2 StoreState modelApi ⟨[]⟩ ⟨[bucket_name]⟩
      ⟨[bucket_name]⟩ [bucket_name] rfl rfl⟩
